import Mathlib

/-!
Verification development for the dtop container dashboard.

This file shallowly embeds the algorithmic core of the repository —
the log viewer (src/log_view.py: filtering, search, wrapping/rebuild,
follow-mode dedup, normalizer failure handling, horizontal scroll) and
the stats collectors (src/stats.py and the batch collector in
src/docker_tui.py) — as executable Lean definitions, and proves or
refutes the specification's claims about them.

Modelling conventions: Python strings become `String`, lists become
`List`, floats become `ℚ`, ints become `Int`/`Nat`; `while` loops whose
progress depends on a width parameter are written with an explicit fuel
argument equal to an upper bound on their iteration count, so that every
definition computes by kernel reduction.  External effects (the docker
client, the subprocess running the normalizer, `time.time()`) enter as
explicit arguments describing their observed results.
-/

set_option maxRecDepth 4000

/-! ## Filter engine (src/log_view.py, filter_logs) -/

/-- One step of the quote-aware tokenizer at the top of `filter_logs`
(src/log_view.py 349-372): a double quote toggles the in-quotes flag, a
space outside quotes ends the current token (dropped when empty), any
other character is appended to the current token; a trailing nonempty
token is emitted at the end of input. -/
def parseFiltersGo : List Char → String → Bool → List String
  | [], cur, _ => if cur = "" then [] else [cur]
  | c :: rest, cur, inQ =>
    if c = '"' then parseFiltersGo rest cur (!inQ)
    else if c = ' ' && !inQ then
      (if cur = "" then parseFiltersGo rest cur inQ
       else cur :: parseFiltersGo rest ("") inQ)
    else parseFiltersGo rest (cur.push c) inQ

/-- Tokenize a filter string exactly as `filter_logs` does. -/
def parseFilters (s : String) : List String := parseFiltersGo s.data ("") false

/-- Literal substring test on character lists: does `pat` occur
contiguously in the second list?  This is `re.search` of an
`re.escape`d pattern, as used by `filter_logs` and the search engine. -/
def containsSub (pat : List Char) : List Char → Bool
  | [] => pat.isEmpty
  | l@(_ :: rest) => pat.isPrefixOf l || containsSub pat rest

/-- ASCII-style lowercasing of a string; models `re.IGNORECASE`
matching by lowercasing both sides.  (Written over the character list
so that it computes by kernel reduction.) -/
def lowerString (s : String) : String := String.mk (s.data.map Char.toLower)

/-- Case-sensitivity-aware literal substring match: with
case-insensitive matching both the term and the line are lowercased. -/
def termMatches (term line : String) (cs : Bool) : Bool :=
  if cs then containsSub term.data line.data
  else containsSub (lowerString term).data (lowerString line).data

/-- A token starting with an exclamation mark or a minus sign is an
exclusion filter (src/log_view.py 399). -/
def isExclToken (f : String) : Bool := f.startsWith ("!") || f.startsWith ("-")

/-- The search term of an exclusion token: everything after the
leading marker. -/
def exclTerm (f : String) : String := f.drop 1

/-- The search term of an inclusion token: the token itself, or the
rest after an optional leading plus sign. -/
def inclTerm (f : String) : String := if f.startsWith ("+") then f.drop 1 else f

/-- The per-line decision of `filter_logs` (src/log_view.py 382-421):
a line is dropped when some exclusion token's nonempty term occurs in
it; when at least one inclusion token exists (regardless of whether its
term is nonempty), the line must additionally match at least one
nonempty inclusion term. -/
def lineKept (filters : List String) (line : String) (cs : Bool) : Bool :=
  let hasIncl := filters.any (fun f => f ≠ "" && !isExclToken f)
  let excluded := filters.any (fun f =>
    f ≠ "" && isExclToken f && exclTerm f ≠ "" && termMatches (exclTerm f) line cs)
  let passesIncl := filters.any (fun f =>
    f ≠ "" && !isExclToken f && inclTerm f ≠ "" && termMatches (inclTerm f) line cs)
  !excluded && (!hasIncl || passesIncl)

/-- `filter_logs` (src/log_view.py 337-423): returns the surviving
lines together with the map from filtered index to original index.  An
empty filter string, or one tokenizing to no tokens, returns the input
with an empty map (the code's sentinel for "no filter"). -/
def filter_logs (logs : List String) (filter_string : String) (cs : Bool) :
    List String × List Nat :=
  if filter_string = "" then (logs, [])
  else
    let filters := parseFilters filter_string
    if filters = [] then (logs, [])
    else
      let kept := logs.enum.filter (fun p => lineKept filters p.2 cs)
      (kept.map (fun p => p.2), kept.map (fun p => p.1))

/-! ## CPU percent (src/stats.py, fetch_container_stats) -/

/-- The CPU computation of `fetch_container_stats` (src/stats.py
27-39): zero unless both the CPU delta and the system delta are
strictly positive, otherwise the Docker formula
`(cpu_delta / system_delta) * cpu_count * 100`. -/
def cpu_percent (cpu_delta system_delta : Int) (cpu_count : Nat) : ℚ :=
  if 0 < system_delta ∧ 0 < cpu_delta then
    ((cpu_delta : ℚ) / (system_delta : ℚ)) * (cpu_count : ℚ) * 100
  else 0

/-! ## Claim C5 -/

/-- C5, counterexample: applying the empty filter to the one-line
buffer `["x"]` yields the empty index map, not the identity map
`[0] = List.range 1` the claim requires — the code returns the empty
list as a "no filter" sentinel instead of an explicit identity map. -/
theorem C5_counterexample :
    (filter_logs (["x"]) ("") false).2 ≠ List.range 1 := by decide

/-- C5 (amended): for every log buffer and case-sensitivity setting,
parsing the empty filter string yields zero tokens, and `filter_logs`
with the empty filter string returns the input unchanged paired with
the EMPTY index map (the code's sentinel meaning "no filter"), rather
than an explicit identity index list. -/
theorem C5_empty_filter (logs : List String) (cs : Bool) :
    parseFilters ("") = [] ∧ filter_logs logs ("") cs = (logs, []) := by
  exact ⟨rfl, by simp [filter_logs]⟩

/-! ## Claim C6 -/

/-- C6: the CPU percentage is `(cpuDelta / systemDelta) * cpuCount *
100` when both deltas are strictly positive; it is 0 whenever the
system delta is nonpositive or the CPU delta is negative (no division
happens there); and at `cpuDelta = 200`, `systemDelta = 1000`,
4 CPUs the result is exactly 80. -/
theorem C6_cpu_percent :
    (∀ (cd sd : Int) (n : Nat), 0 < sd → 0 < cd →
        cpu_percent cd sd n = ((cd : ℚ) / (sd : ℚ)) * (n : ℚ) * 100) ∧
    (∀ (cd sd : Int) (n : Nat), sd ≤ 0 ∨ cd < 0 → cpu_percent cd sd n = 0) ∧
    cpu_percent 200 1000 4 = 80 := by
  refine ⟨?_, ?_, ?_⟩
  · intro cd sd n hsd hcd
    simp [cpu_percent, hsd, hcd]
  · intro cd sd n h
    have : ¬ (0 < sd ∧ 0 < cd) := by omega
    simp [cpu_percent, this]
  · have h : (0 : Int) < 1000 ∧ (0 : Int) < 200 := by omega
    rw [cpu_percent, if_pos h]
    norm_num

/-- C6, witness: the theorem applied at the concrete inputs of the
claim — positive deltas give the formula, a negative CPU delta gives
zero. -/
theorem C6_cpu_percent_witness :
    cpu_percent 200 1000 4 = ((200 : ℚ) / (1000 : ℚ)) * (4 : ℚ) * 100 ∧
    cpu_percent (-7) 1000 4 = 0 :=
  ⟨C6_cpu_percent.1 200 1000 4 (by omega) (by omega),
   C6_cpu_percent.2.1 (-7) 1000 4 (Or.inr (by omega))⟩

/-! ## Viewport rebuild (src/log_view.py, rebuild_log_pad) -/

/-- Number of pad rows the wrapped-mode loop of `rebuild_log_pad`
(src/log_view.py 147-157) emits for a line of length `n` with chunk
width `c = width - 3`: the `while remaining:` body never runs for an
empty line (zero rows), otherwise one row per `c`-character segment.
The fuel argument bounds the iteration count; `fuel = n` always
suffices when `c ≥ 1`.  (For `c = 0`, i.e. a terminal of width ≤ 3,
the source loop would not terminate; the theorems below assume
`4 ≤ width`.) -/
def wrapRowCountFuel (c : Nat) : Nat → Nat → Nat
  | _, 0 => 0
  | n, fuel + 1 =>
    if n = 0 then 0
    else if c = 0 then 0
    else 1 + wrapRowCountFuel c (n - c) fuel

/-- Rows emitted for a line of length `n` at chunk width `c`. -/
def wrapRowCount (c n : Nat) : Nat := wrapRowCountFuel c n n

/-- Pad rows occupied by one logical line: the wrapped segment count
when wrapping is on, exactly one row when wrapping is off
(src/log_view.py 145-164). -/
def lineRows (wrap : Bool) (width : Nat) (line : String) : Nat :=
  if wrap then wrapRowCount (width - 3) line.length else 1

/-- The `line_positions` / `current_line` accumulation of
`rebuild_log_pad`: each logical line records the current pad row, then
advances it by the rows the line occupies. -/
def rebuildAux (rows : String → Nat) : List String → Nat → List Nat × Nat
  | [], cur => ([], cur)
  | l :: ls, cur =>
    let r := rebuildAux rows ls (cur + rows l)
    (cur :: r.1, r.2)

/-- The position index and total row count (`line_positions`,
`actual_lines`) produced by `rebuild_log_pad` for the given wrap
setting and terminal width. -/
def rebuildPositions (wrap : Bool) (width : Nat) (logs : List String) :
    List Nat × Nat :=
  rebuildAux (lineRows wrap width) logs 0

/-- The logical-position loop used by the wrap-toggle handler and the
line counter (src/log_view.py 1323-1327): walk the position index,
remembering the last index whose row is ≤ `pos`, stopping at the first
row beyond `pos`; 0 when the index is empty or starts beyond `pos`. -/
def anchorAux (pos : Nat) : List Nat → Nat → Nat → Nat
  | [], _, acc => acc
  | p :: rest, i, acc => if pos < p then acc else anchorAux pos rest (i + 1) i

/-- Largest logical line index whose canvas row is ≤ `pos` (0 as a
fallback), per the source's linear scan. -/
def anchorLogical (positions : List Nat) (pos : Nat) : Nat :=
  anchorAux pos positions 0 0

/-- The `pos` re-validation at the top of every loop iteration
(src/log_view.py 668-672). -/
def clampPos (actual pos : Nat) : Nat :=
  if 0 < actual then min pos (actual - 1) else 0

/-- The W-key handler's rebuild-and-reanchor step (src/log_view.py
1274-1335): rebuild the pad with the new wrap setting, then — using
the NEW position index, since the code overwrites `line_positions`
before this loop runs — find the logical line at the old offset and
jump to that line's new starting row (0 when the new pad is empty). -/
def toggleWrapStep (logs : List String) (width : Nat) (newWrap : Bool)
    (pos : Nat) : Nat :=
  let r := rebuildPositions newWrap width logs
  if 0 < r.2 then
    let L := anchorLogical r.1 pos
    if L < r.1.length then r.1.getD L 0 else 0
  else 0

/-- Wrap toggled on and then off again, with the main loop's position
clamp running between the two keypresses. -/
def roundTripWrapPos (logs : List String) (width : Nat) (pos : Nat) : Nat :=
  toggleWrapStep logs width false
    (clampPos (rebuildPositions true width logs).2
      (toggleWrapStep logs width true pos))

/-- With at least one unit of fuel per character, the wrapped-row loop
computes the ceiling `(n + c - 1) / c` of `n / c` (which is 0 for an
empty line). -/
theorem wrapRowCountFuel_eq (c : Nat) (hc : 1 ≤ c) :
    ∀ fuel n, n ≤ fuel → wrapRowCountFuel c n fuel = (n + c - 1) / c := by
  intro fuel
  induction fuel with
  | zero =>
    intro n hn
    have hn0 : n = 0 := Nat.le_zero.mp hn
    subst hn0
    show 0 = (0 + c - 1) / c
    exact (Nat.div_eq_of_lt (by omega)).symm
  | succ fuel ih =>
    intro n hn
    by_cases h0 : n = 0
    · subst h0
      show 0 = (0 + c - 1) / c
      exact (Nat.div_eq_of_lt (by omega)).symm
    · have hc0 : c ≠ 0 := by omega
      have hstep : wrapRowCountFuel c n (fuel + 1)
          = 1 + wrapRowCountFuel c (n - c) fuel := by
        simp [wrapRowCountFuel, h0, hc0]
      rw [hstep, ih (n - c) (by omega)]
      by_cases hcn : n ≤ c
      · have h1 : n - c = 0 := by omega
        rw [h1]
        have h2 : (0 + c - 1) / c = 0 := Nat.div_eq_of_lt (by omega)
        have h3 : (n + c - 1) / c = 1 :=
          Nat.div_eq_of_lt_le (by omega) (by omega)
        omega
      · have h3 : n - c + c - 1 + c = n + c - 1 := by omega
        rw [← h3, Nat.add_div_right _ (by omega)]
        omega

/-- The total row count accumulated by `rebuildAux` is the starting
row plus the sum of each line's row count. -/
theorem rebuildAux_snd (rows : String → Nat) :
    ∀ (logs : List String) (cur : Nat),
      (rebuildAux rows logs cur).2 = cur + (logs.map rows).sum := by
  intro logs
  induction logs with
  | nil => intro cur; simp [rebuildAux]
  | cons l ls ih =>
    intro cur
    simp only [rebuildAux, List.map_cons, List.sum_cons]
    rw [ih]
    omega

/-! ## Claim C10 -/

/-- C10: with wrapping enabled and a terminal of width ≥ 4, an empty
logical line contributes zero canvas rows, so the total canvas row
count of `rebuild_log_pad` is the sum over non-empty lines of
`ceil(len / (width - 3))`; and two consecutive `line_positions`
entries can coincide — for the buffer `["", "a"]` at width 10 the
position index is `[0, 0]`. -/
theorem C10_empty_line_rows (logs : List String) (width : Nat)
    (hw : 4 ≤ width) :
    (rebuildPositions true width logs).2 =
      (logs.map (fun l =>
        if l.length = 0 then 0
        else (l.length + (width - 3) - 1) / (width - 3))).sum ∧
    (rebuildPositions true 10 (["", "a"])).1 = [0, 0] := by
  constructor
  · have hc : 1 ≤ width - 3 := by omega
    have hline : lineRows true width = fun l : String =>
        if l.length = 0 then 0
        else (l.length + (width - 3) - 1) / (width - 3) := by
      funext l
      show wrapRowCount (width - 3) l.length = _
      rw [wrapRowCount, wrapRowCountFuel_eq (width - 3) hc l.length l.length le_rfl]
      by_cases h : l.length = 0
      · rw [if_pos h, h]
        exact Nat.div_eq_of_lt (by omega)
      · rw [if_neg h]
    rw [rebuildPositions, rebuildAux_snd, hline, Nat.zero_add]
  · decide

/-- C10, witness: the theorem applied at width 10 to a buffer mixing
empty and non-empty lines. -/
theorem C10_empty_line_rows_witness :
    4 ≤ 10 ∧
    ((rebuildPositions true 10 (["ab", "", "abcdefgh"])).2 =
      ((["ab", "", "abcdefgh"] : List String).map (fun l =>
        if l.length = 0 then 0
        else (l.length + (10 - 3) - 1) / (10 - 3))).sum ∧
     (rebuildPositions true 10 (["", "a"])).1 = [0, 0]) :=
  ⟨by omega, C10_empty_line_rows (["ab", "", "abcdefgh"]) 10 (by omega)⟩

/-! ## Claim C2 -/

/-- C2: evaluating the wrap-toggle round trip on a concrete state
refutes the claimed anchor preservation.  Buffer `["aaaaaaa", "b"]`
(a 7-character line and a 1-character line), width 7 (wrap chunk 4),
unwrapped offset 1 — whose anchor is logical line 1.  Toggling wrap on
rebuilds first (wrapped index `[0, 2]`) and only then computes the
anchor from that NEW index at the old offset 1, landing on logical
line 0; toggling wrap off leaves the offset at 0, whose anchor is
logical line 0, not the original line 1. -/
theorem C2_roundtrip_anchor_moves :
    roundTripWrapPos (["aaaaaaa", "b"]) 7 1 = 0 ∧
    anchorLogical (rebuildPositions false 7 (["aaaaaaa", "b"])).1 0 = 0 ∧
    anchorLogical (rebuildPositions false 7 (["aaaaaaa", "b"])).1 1 = 1 := by
  decide

/-! ## Follow-mode dedup (src/log_view.py, show_logs 552-588) -/

/-- First index of a string in a list, mirroring Python's
`list.index` (the caller turns the not-found `ValueError` into
keeping index 0). -/
def idxOfStr (a : String) : List String → Nat → Option Nat
  | [], _ => none
  | b :: rest, i => if b = a then some i else idxOfStr a rest (i + 1)

/-- `new_start_idx` as computed by the follow-mode fetch handler
(src/log_view.py 562-577).  When the previous fetch retained
`last_log_count > 0` lines and the new batch is strictly longer, scan
the windows `raw_new[i : i + last_log_count]` for
`i < len(raw_new) - last_log_count` for one equal to the last
`last_log_count` lines of the buffer, and start after it; with no
match the start stays 0.  ONLY when that length condition fails does
the `elif` fall back to locating `last_log_line` by equality and
starting just after it. -/
def followNewStart (all_raw : List String) (last_log_line : String)
    (last_log_count : Nat) (raw_new : List String) : Nat :=
  if 0 < last_log_count ∧ last_log_count < raw_new.length then
    match (List.range (raw_new.length - last_log_count)).find?
        (fun i => (raw_new.drop i).take last_log_count
          == all_raw.drop (all_raw.length - last_log_count)) with
    | some i => i + last_log_count
    | none => 0
  else if last_log_line ≠ "" ∧ raw_new ≠ [] then
    match idxOfStr last_log_line raw_new 0 with
    | some j => j + 1
    | none => 0
  else 0

/-- The raw-buffer update of one follow-mode fetch: append the part of
the new batch beyond `new_start_idx` (the whole batch when no overlap
was recognized); an empty fetch leaves the buffer unchanged. -/
def followUpdate (all_raw : List String) (last_log_line : String)
    (last_log_count : Nat) (raw_new : List String) : List String :=
  if raw_new = [] then all_raw
  else all_raw ++
    raw_new.drop (followNewStart all_raw last_log_line last_log_count raw_new)

/-! ## Claim C1 -/

/-- C1: evaluating the follow-update at the claim's own input.  The
retained tail is `[a, b, c]` (`last_log_count = 3`,
`last_log_line = c`) and the new fetch returns `[b, c, d, e]`.  Since
`4 > 3` the exact-sequence branch runs, its only window `[b, c, d]`
differs from `[a, b, c]`, and the last-seen-line fallback — which
would find `c` at index 1 — sits in an `elif` and never runs; the
whole batch is appended, so the buffer ends as
`[a, b, c, b, c, d, e]`, duplicating `b` and `c`, not the claimed
`[a, b, c, d, e]`. -/
theorem C1_follow_dedup_duplicates :
    followUpdate (["a", "b", "c"]) ("c") 3 (["b", "c", "d", "e"])
      = ["a", "b", "c", "b", "c", "d", "e"] ∧
    followUpdate (["a", "b", "c"]) ("c") 3 (["b", "c", "d", "e"])
      ≠ ["a", "b", "c", "d", "e"] := by
  exact ⟨by decide, by decide⟩

/-! ## Normalizer failure handling (src/log_view.py,
normalize_container_logs) -/

/-- Outcome of one normalizer subprocess invocation: either
`Popen`/`communicate` raised (timeout, subprocess error, OS error)
with a message, or the process completed with a return code, stdout
(already split into lines) and stderr text. -/
inductive NormRun where
  | raised (msg : String)
  | completed (returncode : Int) (stdoutLines : List String) (stderr : String)
deriving DecidableEq

/-- The failure condition of `normalize_container_logs`: an exception,
a nonzero exit status, or any stderr output. -/
def normRunFailed : NormRun → Prop
  | NormRun.raised _ => True
  | NormRun.completed rc _ err => rc ≠ 0 ∨ err ≠ ""

/-- The first synthetic diagnostic line inserted on failure
(src/log_view.py 97 and 108): the exception text, or the stripped
stderr. -/
def normErrLine : NormRun → String
  | NormRun.raised msg => ("Log normalization error: ") ++ msg
  | NormRun.completed _ _ err => ("Log normalization error: ") ++ err.trim

/-- `normalize_container_logs` (src/log_view.py 69-110): identity when
normalization is off or the script file is missing; on a failed run, a
copy of the raw lines with two diagnostic lines inserted at positions
0 and 1; otherwise the normalizer's stdout lines. -/
def normalize_container_logs (normalize_logs scriptExists : Bool)
    (run : NormRun) (log_lines : List String) : List String :=
  if !normalize_logs || !scriptExists then log_lines
  else
    match run with
    | NormRun.raised msg =>
      (("Log normalization error: ") ++ msg)
        :: ("Showing raw logs instead.") :: log_lines
    | NormRun.completed rc out err =>
      if rc ≠ 0 ∨ err ≠ "" then
        (("Log normalization error: ") ++ err.trim)
          :: ("Showing raw logs instead.") :: log_lines
      else out

/-- The call sites in `show_logs` (src/log_view.py 444, 591, 1222)
compute `normalize_container_logs(...) if tui.normalize_logs else
raw`, and none of them modifies `tui.normalize_logs` based on the
outcome: the flag component of the result is always the flag that was
passed in. -/
def applyNormalization (normalize_logs scriptExists : Bool) (run : NormRun)
    (raw : List String) : List String × Bool :=
  (if normalize_logs then
     normalize_container_logs normalize_logs scriptExists run raw
   else raw,
   normalize_logs)

/-! ## Claim C3 -/

/-- C3, counterexample: after a normalizer run that exits with status
1 the normalization flag is still `true` — it is not "automatically
disabled" as the claim states; the viewer simply retries the
normalizer on the next invocation. -/
theorem C3_counterexample :
    (applyNormalization true true (NormRun.completed 1 [] ("")) (["x"])).2
      ≠ false := by decide

/-- C3 (amended): for every input line list, when the normalizer
invocation fails (nonzero exit status, stderr output, timeout, or I/O
error) the viewer does not crash (the handler is a total function of
the recorded outcome): the raw lines are substituted unchanged with
exactly two synthetic diagnostic lines prepended, and the
normalization flag is left unchanged — normalization is NOT
automatically disabled, so the next invocation retries the
normalizer. -/
theorem C3_normalizer_failure (run : NormRun) (raw : List String)
    (hfail : normRunFailed run) :
    applyNormalization true true run raw
      = (normErrLine run :: ("Showing raw logs instead.") :: raw, true) := by
  cases run with
  | raised msg => rfl
  | completed rc out err =>
    have h : rc ≠ 0 ∨ err ≠ "" := hfail
    simp [applyNormalization, normalize_container_logs, normErrLine, h]

/-- C3, witness: the amended theorem applied to a run that exited with
status 1 and empty stderr. -/
theorem C3_normalizer_failure_witness :
    applyNormalization true true (NormRun.completed 1 [] ("")) (["x"])
      = (normErrLine (NormRun.completed 1 [] (""))
          :: ("Showing raw logs instead.") :: ["x"], true) :=
  C3_normalizer_failure (NormRun.completed 1 [] ("")) (["x"])
    (Or.inl (by omega))

/-! ## Horizontal scroll (src/log_view.py, show_logs 1377-1398) -/

/-- The KEY_RIGHT handler: advance by 10 columns, clamped above by
`max_line_length - (w - 5)` — the code's horizontal bound, whose
`w - 5` plays the role of the visible width — then below by 0. -/
def hScrollRight (w maxLen h : Int) : Int :=
  max 0 (min (h + 10) (maxLen - (w - 5)))

/-- The KEY_LEFT handler: back by 10 columns, clamped at 0. -/
def hScrollLeft (h : Int) : Int := max 0 (h - 10)

/-- The wrap-toggle handler resets the horizontal offset to 0 whenever
wrapping turns on (src/log_view.py 1278-1279); the arrow-key handlers
only run in unwrapped mode, so the offset stays 0 while wrapped. -/
def hScrollOnWrapToggle (newWrap : Bool) (h : Int) : Int :=
  if newWrap then 0 else h

/-! ## Claim C4 -/

/-- C4: from any nonnegative offset, scrolling right lands in
`[0, max 0 (maxLineLength - visibleWidth)]` where `visibleWidth`
is the code's effective horizontal window `w - 5`, and scrolling left
stays nonnegative and never increases the offset; enabling wrap forces
the offset to 0.  In particular with `w = 15` (visible width 10) over
a 25-character longest line, two 10-column right steps — a 20-column
scroll — clamp the offset to exactly `25 - 10 = 15`. -/
theorem C4_hscroll_clamp :
    (∀ w maxLen h : Int, 0 ≤ h →
        0 ≤ hScrollRight w maxLen h ∧
        hScrollRight w maxLen h ≤ max 0 (maxLen - (w - 5)) ∧
        0 ≤ hScrollLeft h ∧ hScrollLeft h ≤ h) ∧
    hScrollRight 15 25 (hScrollRight 15 25 0) = 15 ∧
    (∀ h : Int, hScrollOnWrapToggle true h = 0) := by
  refine ⟨?_, by decide, fun h => rfl⟩
  intro w maxLen h h0
  unfold hScrollRight hScrollLeft
  omega

/-- C4, witness: the invariant applied at the claim's scenario
(`w = 15`, longest line 25, starting offset 0). -/
theorem C4_hscroll_clamp_witness :
    0 ≤ (0 : Int) ∧
    (0 ≤ hScrollRight 15 25 0 ∧
     hScrollRight 15 25 0 ≤ max 0 (25 - (15 - 5)) ∧
     0 ≤ hScrollLeft 0 ∧ hScrollLeft 0 ≤ 0) :=
  ⟨by omega, C4_hscroll_clamp.1 15 25 0 (by omega)⟩

/-! ## Search engine (src/log_view.py, search_and_highlight and
next_search_match) -/

/-- Start indices of the non-overlapping occurrences of `pat` in the
remaining characters, scanning left to right and resuming after each
match, as `re.finditer` of an escaped pattern does; `i` is the
absolute index of the head of `rest` and the fuel bounds the scan
(one unit per character suffices for a nonempty pattern). -/
def occsFrom (pat : List Char) (rest : List Char) (i : Nat) : Nat → List Nat
  | 0 => []
  | fuel + 1 =>
    if List.isPrefixOf pat rest then
      i :: occsFrom pat (rest.drop pat.length) (i + pat.length) fuel
    else
      match rest with
      | [] => []
      | _ :: t => occsFrom pat t (i + 1) fuel

/-- All match start positions of `pat` within one line. -/
def lineOccurrences (pat line : List Char) : List Nat :=
  occsFrom pat line 0 (line.length + 1)

/-- Ascending lexicographic comparison on
(line index, column, length), the order `search_matches.sort()` uses
on Python tuples. -/
def matchLe (a b : Nat × Nat × Nat) : Bool :=
  if a.1 ≠ b.1 then decide (a.1 < b.1)
  else if a.2.1 ≠ b.2.1 then decide (a.2.1 < b.2.1)
  else decide (a.2.2 ≤ b.2.2)

/-- Insert into a sorted match list, keeping earlier-inserted equal
elements behind (stable, like Python's sort). -/
def insertMatch (a : Nat × Nat × Nat) :
    List (Nat × Nat × Nat) → List (Nat × Nat × Nat)
  | [] => [a]
  | b :: rest =>
    if matchLe a b then a :: b :: rest else b :: insertMatch a rest

/-- Insertion sort of the match list by `(line, column)`. -/
def sortMatches : List (Nat × Nat × Nat) → List (Nat × Nat × Nat)
  | [] => []
  | a :: rest => insertMatch a (sortMatches rest)

/-- The match collection of `search_and_highlight` (src/log_view.py
173-195): an empty pattern yields no matches; otherwise every
non-overlapping occurrence of the (case-folded when insensitive)
pattern in every line becomes a `(line, start, length)` triple, and
the list is sorted by line then position. -/
def searchMatches (logs : List String) (pat : String) (cs : Bool) :
    List (Nat × Nat × Nat) :=
  if pat = "" then []
  else
    let eff := fun s : String => if cs then s else lowerString s
    sortMatches (logs.enum.flatMap (fun p =>
      (lineOccurrences (eff pat).data (eff p.2).data).map
        (fun s => (p.1, s, pat.length))))

/-- The start-position-to-logical-line loop of `search_and_highlight`
(src/log_view.py 204-210): the index just before the first position
beyond `start_pos` (possibly `-1`), or the last index when no position
exceeds it. -/
def logicalLineAux (start_pos total : Nat) : List Nat → Nat → Int → Int
  | [], _, acc => acc
  | p :: rest, i, acc =>
    if start_pos < p then (i : Int) - 1
    else if i = total - 1 then
      logicalLineAux start_pos total rest (i + 1) (i : Int)
    else logicalLineAux start_pos total rest (i + 1) acc

/-- Logical line shown at canvas row `start_pos`, per the source's
scan of the position index. -/
def logicalLineFor (positions : List Nat) (start_pos : Nat) : Int :=
  logicalLineAux start_pos positions.length positions 0 0

/-- The `current_match` selection of `search_and_highlight`
(src/log_view.py 197-220): `-1` with no matches; otherwise the first
match on or after the logical line at `start_pos` (index 0 when
`start_pos = 0` or no such match), clamped into the valid range. -/
def selectCurrentMatch (ms : List (Nat × Nat × Nat))
    (positions : List Nat) (start_pos : Nat) : Int :=
  if ms = [] then -1
  else
    let closest : Nat :=
      if 0 < start_pos then
        let ll := logicalLineFor positions start_pos
        match ms.findIdx? (fun m => decide (ll ≤ (m.1 : Int))) with
        | some i => i
        | none => 0
      else 0
    max 0 (min (closest : Int) ((ms.length : Int) - 1))

/-- The wrapped-segment seek loop of `next_search_match`
(src/log_view.py 295-297): advance one pad row per full wrap width
still ahead of the match column.  Fuel bounds the iterations
(`char_pos + 1` suffices when the wrap width is positive; the source
loop would not terminate for wrap width 0). -/
def wrapSeekFuel (ww : Nat) : Nat → Nat → Nat → Nat
  | pad, _, 0 => pad
  | pad, cp, fuel + 1 =>
    if 0 < ww ∧ ww ≤ cp then wrapSeekFuel ww (pad + 1) (cp - ww) fuel
    else pad

/-- Pad row of a match at `(line_idx, char_pos)`: the line's starting
row, advanced through wrapped segments when wrapping is on. -/
def padLineForMatch (positions : List Nat) (wrap : Bool) (w : Nat)
    (line_idx char_pos : Nat) : Nat :=
  if wrap then
    wrapSeekFuel (w - 3) (positions.getD line_idx 0) char_pos (char_pos + 1)
  else positions.getD line_idx 0

/-- `next_search_match` (src/log_view.py 279-306): `none` with no
matches; otherwise advance the cursor by one modulo the match count
and report that match's pad row together with the new cursor. -/
def nextSearchMatch (ms : List (Nat × Nat × Nat)) (current : Int)
    (positions : List Nat) (wrap : Bool) (w : Nat) : Option (Nat × Int) :=
  if ms = [] then none
  else
    let newIdx : Int := (current + 1) % (ms.length : Int)
    let m := ms.getD newIdx.toNat (0, 0, 0)
    some (padLineForMatch positions wrap w m.1 m.2.1, newIdx)

/-! ## Claim C7 -/

/-- C7: a case-insensitive search for ERROR over
`["error x", "INFO", "Error y"]` yields exactly the two matches
`(0, 0, 5)` and `(2, 0, 5)` in `(line, column)` order; with the view
at the top the current-match cursor selects index 0; advancing moves
the cursor to index 1 — the match on line 2, at pad row 2 of the
unwrapped position index — and advancing again wraps back to index 0
on line 0 (the cursor advances modulo the match count). -/
theorem C7_search_scenario :
    searchMatches (["error x", "INFO", "Error y"]) ("ERROR") false
      = [(0, 0, 5), (2, 0, 5)] ∧
    selectCurrentMatch
      (searchMatches (["error x", "INFO", "Error y"]) ("ERROR") false)
      (rebuildPositions false 80 (["error x", "INFO", "Error y"])).1 0 = 0 ∧
    nextSearchMatch
      (searchMatches (["error x", "INFO", "Error y"]) ("ERROR") false) 0
      (rebuildPositions false 80 (["error x", "INFO", "Error y"])).1
      false 80 = some (2, 1) ∧
    nextSearchMatch
      (searchMatches (["error x", "INFO", "Error y"]) ("ERROR") false) 1
      (rebuildPositions false 80 (["error x", "INFO", "Error y"])).1
      false 80 = some (0, 0) := by
  refine ⟨?_, ?_, ?_, ?_⟩ <;> decide

/-! ## Per-container stats cache update (src/stats.py,
fetch_container_stats 59-85) -/

/-- One cached stats sample, as stored in `tui.stats_cache`. -/
structure StatsEntry where
  cpu : ℚ
  mem : ℚ
  net_in : ℚ
  net_out : ℚ
  net_in_rate : ℚ
  net_out_rate : ℚ
  time : ℚ
deriving DecidableEq

/-- The locked cache-update block of `fetch_container_stats`: `prev`
is the container's existing cache entry — `none` on first observation,
when the `defaultdict` yields an empty dict and every `.get` falls
back to its default: the current network counters, and the
`time.time()` sampled at that moment (`t1`).  `t2` is the
`time.time()` used for `time_diff` and `t3` the one stored in the new
entry (the source calls `time.time()` three times, in that order). -/
def updateStatsEntry (prev : Option StatsEntry)
    (cpu mem net_in net_out : ℚ) (t1 t2 t3 : ℚ) : StatsEntry :=
  let prev_time := match prev with | some p => p.time | none => t1
  let prev_net_in := match prev with | some p => p.net_in | none => net_in
  let prev_net_out := match prev with | some p => p.net_out | none => net_out
  let time_diff := t2 - prev_time
  let net_in_rate := if 0 < time_diff then (net_in - prev_net_in) / time_diff else 0
  let net_out_rate := if 0 < time_diff then (net_out - prev_net_out) / time_diff else 0
  { cpu := cpu, mem := mem, net_in := net_in, net_out := net_out,
    net_in_rate := net_in_rate, net_out_rate := net_out_rate, time := t3 }

/-! ## Claim C8 -/

/-- C8: on the first observation of a container (no previous cache
entry) the previous counters default to the current ones, so both
network rates are reported as 0 — whatever the sampled times were; on
a later observation with a cached entry whose timestamp precedes the
current sample, each rate is
`(currentCumulativeBytes - previousCumulativeBytes) / elapsedSeconds`
against that cached entry. -/
theorem C8_net_rate :
    (∀ (cpu mem ni nout t1 t2 t3 : ℚ),
        (updateStatsEntry none cpu mem ni nout t1 t2 t3).net_in_rate = 0 ∧
        (updateStatsEntry none cpu mem ni nout t1 t2 t3).net_out_rate = 0) ∧
    (∀ (p : StatsEntry) (cpu mem ni nout t1 t2 t3 : ℚ), p.time < t2 →
        (updateStatsEntry (some p) cpu mem ni nout t1 t2 t3).net_in_rate
          = (ni - p.net_in) / (t2 - p.time) ∧
        (updateStatsEntry (some p) cpu mem ni nout t1 t2 t3).net_out_rate
          = (nout - p.net_out) / (t2 - p.time)) := by
  constructor
  · intro cpu mem ni nout t1 t2 t3
    constructor <;>
      · show (if 0 < t2 - t1 then _ / (t2 - t1) else 0) = 0
        split <;> simp
  · intro p cpu mem ni nout t1 t2 t3 ht
    have h : 0 < t2 - p.time := by linarith
    constructor <;>
      · show (if 0 < t2 - p.time then _ / (t2 - p.time) else 0) = _
        rw [if_pos h]

/-- C8, witness: a first observation reports zero rates, and a second
observation two seconds later with 4 more inbound and 6 more outbound
bytes reports the difference quotients. -/
theorem C8_net_rate_witness :
    ((updateStatsEntry none 0 0 5 9 10 10 10).net_in_rate = 0 ∧
     (updateStatsEntry none 0 0 5 9 10 10 10).net_out_rate = 0) ∧
    ((updateStatsEntry
        (some { cpu := 0, mem := 0, net_in := 5, net_out := 9,
                net_in_rate := 0, net_out_rate := 0, time := 10 })
        0 0 9 15 12 12 12).net_in_rate = (9 - 5) / (12 - 10) ∧
     (updateStatsEntry
        (some { cpu := 0, mem := 0, net_in := 5, net_out := 9,
                net_in_rate := 0, net_out_rate := 0, time := 10 })
        0 0 9 15 12 12 12).net_out_rate = (15 - 9) / (12 - 10)) :=
  ⟨C8_net_rate.1 0 0 5 9 10 10 10,
   C8_net_rate.2
     { cpu := 0, mem := 0, net_in := 5, net_out := 9,
       net_in_rate := 0, net_out_rate := 0, time := 10 }
     0 0 9 15 12 12 12 (by norm_num)⟩

/-! ## Batch stats collector (src/docker_tui.py,
schedule_stats_collection 27-70) -/

/-- One cache entry written by the batch collector defined in
src/docker_tui.py — the definition that shadows the per-container
collector imported from src/stats.py and is the one
`DockerTUI.fetch_containers` actually submits to the executor. -/
structure BatchStatsEntry where
  cpu : ℚ
  mem : ℚ
  net_in_rate : ℚ
  net_out_rate : ℚ
  net_in : ℚ
  net_out : ℚ
  time : ℚ
deriving DecidableEq

/-- Python's character slicing `s[:n]`. -/
def takeChars (s : String) (n : Nat) : String := String.mk (s.data.take n)

/-- Python's `line.split(sep)` for the single-character separator
`"|"`: every separator ends the current field, including empty
fields. -/
def splitPipeGo : List Char → String → List String
  | [], cur => [cur]
  | c :: rest, cur =>
    if c = '|' then cur :: splitPipeGo rest ("")
    else splitPipeGo rest (cur.push c)

/-- Split a CLI output line on the pipe separator. -/
def splitPipe (line : String) : List String := splitPipeGo line.data ("")

/-- The id map `{c.id[:12]: c.id}` built from the running containers'
full ids. -/
def idMapOf (containers : List String) : List (String × String) :=
  containers.map (fun c => (takeChars c 12, c))

/-- One line of `docker stats --format` output as handled by the
batch collector (src/docker_tui.py 41-65): split on the pipe
separator, require exactly six fields, map the short id through the id
map (unknown ids are skipped), and build an entry whose four network
fields are the constant 0.  Python's `float(x.strip('%'))`-with-
fallback parsing of the cpu/mem fields is abstracted as `parsePct`;
`now` is the single `time.time()` stamped on every entry of the
cycle. -/
def parseStatsLine (idMap : List (String × String)) (parsePct : String → ℚ)
    (now : ℚ) (line : String) : Option (String × BatchStatsEntry) :=
  match splitPipe line with
  | [short, _nm, cpu, mem, _netio, _blockio] =>
    match idMap.lookup short with
    | some full =>
      some (full,
        { cpu := parsePct cpu, mem := parsePct mem,
          net_in_rate := 0, net_out_rate := 0, net_in := 0, net_out := 0,
          time := now })
    | none => none
  | _ => none

/-- The `new_cache` dict accumulated over the CLI output lines. -/
def buildNewCache (idMap : List (String × String)) (parsePct : String → ℚ)
    (now : ℚ) (lines : List String) : List (String × BatchStatsEntry) :=
  lines.filterMap (parseStatsLine idMap parsePct now)

/-- The whole batch collector: an empty container list returns early
keeping the old cache; a raised `subprocess.check_output` leaves the
cache untouched (`cliResult = none`); otherwise, under the stats lock,
the cache is cleared and replaced by `new_cache` in one step. -/
def scheduleStatsCollection (old : List (String × BatchStatsEntry))
    (containers : List String) (parsePct : String → ℚ) (now : ℚ)
    (cliResult : Option (List String)) : List (String × BatchStatsEntry) :=
  if containers = [] then old
  else
    match cliResult with
    | none => old
    | some lines => buildNewCache (idMapOf containers) parsePct now lines

/-! ## Claim C9 -/

/-- C9: on a refresh cycle with a nonempty running-container list and
a successful CLI run, the batch collector replaces the whole cache in
one step — the result is `new_cache`, independent of the previous
cache contents — and every entry it stores has
`net_in_rate = net_out_rate = net_in = net_out = 0`, so readers of
this code path never observe a nonzero network figure. -/
theorem C9_batch_stats_zero_rates
    (old : List (String × BatchStatsEntry)) (containers : List String)
    (parsePct : String → ℚ) (now : ℚ) (lines : List String)
    (hc : containers ≠ []) :
    scheduleStatsCollection old containers parsePct now (some lines)
      = buildNewCache (idMapOf containers) parsePct now lines ∧
    ∀ k e,
      (k, e) ∈ scheduleStatsCollection old containers parsePct now (some lines) →
        e.net_in_rate = 0 ∧ e.net_out_rate = 0 ∧ e.net_in = 0 ∧ e.net_out = 0 := by
  have hrepl : scheduleStatsCollection old containers parsePct now (some lines)
      = buildNewCache (idMapOf containers) parsePct now lines := by
    simp [scheduleStatsCollection, hc]
  refine ⟨hrepl, ?_⟩
  intro k e hmem
  rw [hrepl] at hmem
  obtain ⟨line, -, hline⟩ := List.mem_filterMap.mp hmem
  unfold parseStatsLine at hline
  split at hline
  · split at hline
    · simp only [Option.some.injEq, Prod.mk.injEq] at hline
      obtain ⟨-, he⟩ := hline
      rw [← he]
      exact ⟨rfl, rfl, rfl, rfl⟩
    · exact absurd hline (by simp)
  · exact absurd hline (by simp)

/-- C9, witness: one container with a 16-character id and one
well-formed CLI line; the stored entry for it carries only zero
network figures, whatever the old cache held. -/
theorem C9_batch_stats_zero_rates_witness :
    ({ cpu := 0, mem := 0, net_in_rate := 0, net_out_rate := 0,
       net_in := 0, net_out := 0, time := 0 } : BatchStatsEntry).net_in_rate = 0 ∧
    ({ cpu := 0, mem := 0, net_in_rate := 0, net_out_rate := 0,
       net_in := 0, net_out := 0, time := 0 } : BatchStatsEntry).net_out_rate = 0 ∧
    ({ cpu := 0, mem := 0, net_in_rate := 0, net_out_rate := 0,
       net_in := 0, net_out := 0, time := 0 } : BatchStatsEntry).net_in = 0 ∧
    ({ cpu := 0, mem := 0, net_in_rate := 0, net_out_rate := 0,
       net_in := 0, net_out := 0, time := 0 } : BatchStatsEntry).net_out = 0 :=
  (C9_batch_stats_zero_rates [] (["abcdefghijkl0000"]) (fun _ => 0) 0
      (["abcdefghijkl|name|5%|10%|1kB / 2kB|0B / 0B"]) (by decide)).2
    ("abcdefghijkl0000")
    { cpu := 0, mem := 0, net_in_rate := 0, net_out_rate := 0,
      net_in := 0, net_out := 0, time := 0 }
    (by decide)
